import Mathlib

/-!
# OHPOS_Backend — verification of the request-admission and payment-facade layer

Shallow embedding of `src/server.js` (the variant with authentication, rate
limiting and idempotency middleware, whose line numbers the claims cite).

JavaScript-specific behaviour is modelled explicitly:
  * an absent value (`undefined`/`null`) is `Option.none`;
  * `a || b` on strings treats the empty string as falsy (`jsOr`, `jsOrStr`);
  * `!x` on an optional string is true for `none` and `some ""` (`truthyStr`);
  * `!n` on a number is true for `0` (`truthyAmount`).

Calls to the external payment processor (Stripe) are not executed: each
handler records the calls it would make in a `List ProcessorCall`, and the
results the processor would return are supplied by a `ProcessorOracle`
argument.  "No processor call is made" is then `resp.calls = []`.
-/

namespace OHPOS

/-! ## JavaScript string / falsiness helpers -/

/-- JS `a || b` for two possibly-absent strings: the empty string is falsy. -/
def jsOr (a b : Option String) : Option String :=
  match a with
  | some s => if s = "" then b else some s
  | none => b

/-- JS `a || d` where `a` is a possibly-absent string and `d` a string default. -/
def jsOrStr (a : Option String) (d : String) : String :=
  match a with
  | some s => if s = "" then d else s
  | none => d

/-- JS truthiness of an optional string: present and non-empty. -/
def truthyStr : Option String → Bool
  | some s => s ≠ ""
  | none => false

/-- JS truthiness of an optional numeric `amount`: present and non-zero. -/
def truthyAmount : Option Int → Bool
  | some n => n ≠ 0
  | none => false

/-- Whether `pat` starts `s` (character lists). -/
def listStartsWith : List Char → List Char → Bool
  | [], _ => true
  | _ :: _, [] => false
  | a :: as, b :: bs => a == b && listStartsWith as bs

/-- Whether `pat` occurs as a contiguous substring of `s` (character lists). -/
def listHasInfix (pat : List Char) : List Char → Bool
  | [] => listStartsWith pat []
  | c :: rest => listStartsWith pat (c :: rest) || listHasInfix pat rest

/-- JS `s.includes(pat)`. -/
def strIncludes (s pat : String) : Bool :=
  listHasInfix pat.data s.data

/-- Trim whitespace from both ends of a character list. -/
def listTrim (l : List Char) : List Char :=
  ((l.dropWhile Char.isWhitespace).reverse.dropWhile Char.isWhitespace).reverse

/-- JS `s.trim()`. -/
def strTrim (s : String) : String :=
  ⟨listTrim s.data⟩

/-- Split a character list at every character satisfying `p`
(adjacent delimiters produce empty pieces, as JS `split` on a single
character class does; callers filter out the empties). -/
def listSplit (p : Char → Bool) : List Char → List (List Char)
  | [] => [[]]
  | c :: rest =>
    match listSplit p rest with
    | [] => if p c then [[], []] else [[c]]
    | t :: ts => if p c then [] :: t :: ts else (c :: t) :: ts

/-- JS `s.slice(0, n)` (strings here are ASCII, so code units = characters). -/
def strTakeN (s : String) (n : Nat) : String :=
  ⟨s.data.take n⟩

/-- JS `s.toLowerCase()` (character-wise; the categories involved are ASCII). -/
def strToLower (s : String) : String :=
  ⟨s.data.map Char.toLower⟩

/-! ## Statement-descriptor suffix (`src/server.js` lines 326–333)

```js
const rawSuffix = (category || "POS").toString().toLowerCase();
let suffix;
if (rawSuffix.includes("concession")) suffix = "OHP CONCESSIONS";
else if (rawSuffix.includes("merch")) suffix = "OHP MERCH";
else if (rawSuffix.includes("art")) suffix = "OHP ART";
else suffix = "OHP POS";
suffix = suffix.slice(0, 22);
```
-/

def deriveSuffix (category : Option String) : String :=
  let rawSuffix := strToLower (jsOrStr category "POS")
  let suffix :=
    if strIncludes rawSuffix "concession" then "OHP CONCESSIONS"
    else if strIncludes rawSuffix "merch" then "OHP MERCH"
    else if strIncludes rawSuffix "art" then "OHP ART"
    else "OHP POS"
  strTakeN suffix 22

/-- First-match-wins reading of the suffix table: `concession` before
`merch` before `art` (the comparison point for the amended Claim C3). -/
def prioritySuffix (category : Option String) : String :=
  match category with
  | none => "OHP POS"
  | some c =>
    let lc := strToLower c
    if strIncludes lc "concession" then "OHP CONCESSIONS"
    else if strIncludes lc "merch" then "OHP MERCH"
    else if strIncludes lc "art" then "OHP ART"
    else "OHP POS"

/-! ## Effective status (`src/server.js` line 442)

```js
const effectiveStatus =
  (intent.status === 'succeeded' || lc?.status === 'succeeded')
    ? 'succeeded' : intent.status;
```
-/

def effectiveStatus (intentStatus : String) (latestChargeStatus : Option String) : String :=
  if intentStatus = "succeeded" ∨ latestChargeStatus = some "succeeded" then
    "succeeded"
  else intentStatus

/-! ## API-key configuration (`src/server.js` lines 257–272)

```js
const SINGLE_API_KEY = (process.env.POS_BACKEND_KEY || "").trim();
const MULTI_KEYS_RAW = (process.env.POS_BACKEND_KEYS || "");
const MULTI_KEYS = new Set(
  MULTI_KEYS_RAW.split(/[\n,\s,]+/).map(s => s.trim()).filter(Boolean));
```
`MULTI_KEYS` is modelled as a list; only membership and non-emptiness are
ever consulted, so set-versus-list makes no difference. -/

/-- Delimiter class of the regex `[\n,\s,]+`: newline, comma or whitespace. -/
def isKeyDelim (c : Char) : Bool :=
  c = '\n' || c = ',' || c.isWhitespace

/-- Parse `POS_BACKEND_KEYS` into the configured key set
(splitting on a run of delimiters and then filtering out empty pieces
coincide, so per-character splitting plus the `filter` is faithful). -/
def parseMultiKeys (raw : String) : List String :=
  (((listSplit isKeyDelim raw.data).map (fun l => strTrim ⟨l⟩)).filter (· ≠ ""))

/-- The authentication configuration resolved at process start:
`singleKey` is `SINGLE_API_KEY` (already trimmed, `""` when unset) and
`multiKeys` is `MULTI_KEYS`. -/
structure AuthConfig where
  singleKey : String
  multiKeys : List String
deriving DecidableEq, Repr

/-- Build the `AuthConfig` from the two raw environment values. -/
def mkAuthConfig (posBackendKey posBackendKeys : Option String) : AuthConfig :=
  { singleKey := strTrim (jsOrStr posBackendKey "")
    multiKeys := parseMultiKeys (jsOrStr posBackendKeys "") }

/-! ## Authentication middleware (`src/server.js` lines 267–286)

```js
function hasValidKey(value) {
  if (!value) return false;
  if (SINGLE_API_KEY && value === SINGLE_API_KEY) return true;
  if (MULTI_KEYS.size > 0 && MULTI_KEYS.has(value)) return true;
  return false;
}
function authMiddleware(req, res, next) {
  if (!SINGLE_API_KEY && MULTI_KEYS.size === 0) {
    return res.status(500).json({ error: "Server not configured: ..." });
  }
  const presented = req.header("x-api-key") || req.header("x-device-key");
  if (!hasValidKey(presented)) {
    return res.status(401).json({ error: "Unauthorized" });
  }
  return next();
}
```
-/

def hasValidKey (cfg : AuthConfig) (value : Option String) : Bool :=
  match value with
  | none => false
  | some v =>
    if v = "" then false
    else if cfg.singleKey ≠ "" && v = cfg.singleKey then true
    else if cfg.multiKeys.length > 0 && cfg.multiKeys.contains v then true
    else false

inductive AuthDecision where
  | serverError
  | unauthorized
  | allowed
deriving DecidableEq, Repr

/-- Decision taken by `authMiddleware` given the two credential headers. -/
def authDecision (cfg : AuthConfig) (xApiKey xDeviceKey : Option String) : AuthDecision :=
  if cfg.singleKey = "" ∧ cfg.multiKeys = [] then .serverError
  else if ¬ hasValidKey cfg (jsOr xApiKey xDeviceKey) then .unauthorized
  else .allowed

/-! ## Rate limiter (`src/server.js` lines 288–296)

```js
const limiter = rateLimit({
  windowMs: 60 * 1000,
  limit: Number(process.env.RATE_LIMIT_PER_MINUTE || 60),
  standardHeaders: true, legacyHeaders: false,
  keyGenerator: (req) => getClientIp(req),
});
```
Modelled from the semantics of `express-rate-limit`'s default memory store:
per key, a counter bound to a fixed 60-second window is incremented on each
hit, a fresh window starting when the current one has expired; the request
is rejected (HTTP 429) when the incremented count exceeds the limit. -/

def windowMs : Nat := 60 * 1000

structure LimiterState where
  windowStart : Nat
  count : Nat
deriving DecidableEq, Repr

/-- One limiter hit at time `t` (milliseconds): returns the new state and
`true` when the request is rate-limited. -/
def limiterHit (limit : Nat) (s : LimiterState) (t : Nat) : LimiterState × Bool :=
  let s := if s.windowStart + windowMs ≤ t then ⟨t, 0⟩ else s
  let c := s.count + 1
  (⟨s.windowStart, c⟩, decide (c > limit))

/-- Run the limiter over a sequence of hit times for one key, collecting the
rate-limited verdicts. -/
def runLimiter (limit : Nat) (s : LimiterState) : List Nat → List Bool
  | [] => []
  | t :: ts =>
    let (s', b) := limiterHit limit s t
    b :: runLimiter limit s' ts

/-! ## Client IP extractor (`src/server.js` lines 224–255)

```js
function getClientIp(req) {
  const header = (req.headers["x-forwarded-for"] || req.ip || "").toString();
  let token = header.split(",")[0].trim();
  if (!token) token = "";
  if (token.startsWith("[") && token.includes("]")) {
    token = token.slice(1, token.indexOf("]"));
  }
  const lastColon = token.lastIndexOf(":");
  if (lastColon !== -1 && /^\d+$/.test(token.slice(lastColon + 1))) {
    token = token.slice(0, lastColon);
  }
  if (token.startsWith("::ffff:")) token = token.slice(7);
  if (!isIP(token)) {
    let ra = (req.socket && req.socket.remoteAddress) || "";
    if (ra.startsWith("[")) {
      const end = ra.indexOf("]");
      if (end !== -1) ra = ra.slice(1, end);
    }
    const lc = ra.lastIndexOf(":");
    if (lc !== -1 && /^\d+$/.test(ra.slice(lc + 1))) ra = ra.slice(0, lc);
    if (ra.startsWith("::ffff:")) ra = ra.slice(7);
    if (isIP(ra)) return ra;
  }
  return token || "unknown";
}
```
-/

/-- JS `a || b || ... || ""` over possibly-absent strings. -/
def firstTruthy : List (Option String) → String
  | [] => ""
  | some s :: rest => if s = "" then firstTruthy rest else s
  | none :: rest => firstTruthy rest

/-! ### Syntactic IP validity

Models `isIP` from `node:net` (an external library): IPv4 is four dotted
decimal octets, each 0–255 with no leading zero; IPv6 is colon-separated
hexadecimal groups of one to four digits, eight groups, or fewer with a
single `::` compression, with an optional embedded IPv4 tail counting as
two groups.  (IPv6 zone suffixes are not modelled; no claim involves
them.)  The theorems about the extractor's fallback structure hold for
any validity predicate; this concrete one is used to evaluate witnesses
and counterexamples. -/

/-- Decimal value of a digit list. -/
def digitsVal (l : List Char) : Nat :=
  l.foldl (fun a c => a * 10 + (c.toNat - '0'.toNat)) 0

/-- One dotted-decimal octet: `0`–`255`, no leading zero. -/
def isIPv4Octet (l : List Char) : Bool :=
  !l.isEmpty && l.all Char.isDigit && l.length ≤ 3 &&
  (l.length = 1 || l.headD '0' ≠ '0') && digitsVal l ≤ 255

def isIPv4 (s : String) : Bool :=
  let parts := listSplit (· = '.') s.data
  parts.length = 4 && parts.all isIPv4Octet

/-- One to four hexadecimal digits. -/
def isHexGroup (l : List Char) : Bool :=
  !l.isEmpty && l.length ≤ 4 &&
  l.all (fun c => c.isDigit || ('a' ≤ c && c ≤ 'f') || ('A' ≤ c && c ≤ 'F'))

/-- Split at the first `::`, returning what precedes it and, when present,
what follows. -/
def splitDoubleColon : List Char → List Char × Option (List Char)
  | [] => ([], none)
  | ':' :: ':' :: rest => ([], some rest)
  | c :: rest =>
    let (a, b) := splitDoubleColon rest
    (c :: a, b)

/-- Colon-separated groups of one side of an address; `none` when a group
is empty (a stray `:`). -/
def parseGroups (cs : List Char) : Option (List (List Char)) :=
  if cs.isEmpty then some []
  else
    let gs := listSplit (· = ':') cs
    if gs.all (fun g => !g.isEmpty) then some gs else none

/-- Count the 16-bit groups of a group list, allowing an embedded IPv4 tail
(worth two groups) when `allowV4Tail`; `none` when some group is invalid. -/
def groupsVal (allowV4Tail : Bool) : List (List Char) → Option Nat
  | [] => some 0
  | [g] =>
    if isHexGroup g then some 1
    else if allowV4Tail && g.contains '.' && isIPv4 ⟨g⟩ then some 2
    else none
  | g :: g' :: rest =>
    if isHexGroup g then (groupsVal allowV4Tail (g' :: rest)).map (· + 1) else none

def isIPv6 (s : String) : Bool :=
  match splitDoubleColon s.data with
  | (l, none) =>
    match parseGroups l with
    | some gs => (groupsVal true gs) = some 8
    | none => false
  | (l, some r) =>
    if (splitDoubleColon r).2.isSome then false
    else
      match parseGroups l, parseGroups r with
      | some gl, some gr =>
        match groupsVal false gl, groupsVal true gr with
        | some nl, some nr => nl + nr ≤ 7
        | _, _ => false
      | _, _ => false

def isIP (s : String) : Bool :=
  isIPv4 s || isIPv6 s

/-! ### The cleaning steps and the extractor itself -/

/-- Strip `[...]` bracket notation: keep what stands between the leading
bracket and the first closing bracket. -/
def stripBrackets (t : String) : String :=
  match t.data with
  | '[' :: rest => if rest.contains ']' then ⟨rest.takeWhile (· ≠ ']')⟩ else t
  | _ => t

/-- Strip a trailing `:port` when everything after the last colon is one or
more digits. -/
def stripPort (t : String) : String :=
  let rev := t.data.reverse
  let suf := rev.takeWhile (· ≠ ':')
  if rev.contains ':' && !suf.isEmpty && suf.all Char.isDigit then
    ⟨((rev.drop (suf.length + 1)).reverse)⟩
  else t

/-- Normalize an IPv4-mapped IPv6 prefix `::ffff:` away. -/
def stripMapped (t : String) : String :=
  if listStartsWith "::ffff:".data t.data then ⟨t.data.drop 7⟩ else t

/-- The three cleaning steps, in the order the code applies them. -/
def cleanIp (s : String) : String :=
  stripMapped (stripPort (stripBrackets s))

/-- The cleaned first token of the forwarding header (header value, then
`req.ip`, then `""`; first comma-separated piece; trimmed; cleaned). -/
def headerToken (xff reqIp : Option String) : String :=
  cleanIp (strTrim ⟨(firstTruthy [xff, reqIp]).data.takeWhile (· ≠ ',')⟩)

/-- The cleaned raw socket address used as fallback. -/
def socketToken (remoteAddress : Option String) : String :=
  cleanIp (firstTruthy [remoteAddress])

/-- The function `getClientIp`, on the request's forwarding header, `req.ip` and
`req.socket.remoteAddress`. -/
def getClientIp (xff reqIp remoteAddress : Option String) : String :=
  let token := headerToken xff reqIp
  if !(isIP token) then
    let ra := socketToken remoteAddress
    if isIP ra then ra
    else if token = "" then "unknown" else token
  else if token = "" then "unknown" else token

/-! ## Idempotency middleware (`src/server.js` lines 298–305)

```js
app.use("/api", (req, res, next) => {
  if (req.method.toUpperCase() === "POST") {
    const idem = req.header("Idempotency-Key");
    if (!idem) return res.status(400).json({ error: "Missing Idempotency-Key header" });
  }
  next();
});
```
-/

/-- JS `s.toUpperCase()` (character-wise; methods are ASCII). -/
def strToUpper (s : String) : String :=
  ⟨s.data.map Char.toUpper⟩

/-- Holds (`true`) when the idempotency middleware rejects the request. -/
def idemReject (method : String) (idem : Option String) : Bool :=
  strToUpper method = "POST" && !(truthyStr idem)

/-! ## Process configuration (`src/server.js` lines 172–203, 289–291, 400–401)

The environment variables consulted at start-up, plus the values derived
from them (`STRIPE_TERMINAL_ID = ENV === "prod" ? process.env.STRIPE_TERMINAL_ID_PROD : null`).
-/

structure ApiConfig where
  /-- Mode `ENV` (`process.env.STRIPE_ENV || "test"`, already defaulted). -/
  env : String
  /-- Value of `process.env.STRIPE_TERMINAL_ID_PROD`. -/
  terminalIdProdEnv : Option String
  /-- Value of `STRIPE_LOCATION_ID` for the active mode. -/
  locationId : Option String
  auth : AuthConfig
  /-- Value of `Number(process.env.RATE_LIMIT_PER_MINUTE || 60)`, already parsed. -/
  rateLimit : Nat
  /-- Value of `process.env.STRIPE_SIMULATE_CARD`. -/
  simulateCardEnv : Option String
  /-- Value of `process.env.STRIPE_SIMULATE_CARD_NUMBER`. -/
  simulateCardNumberEnv : Option String
deriving DecidableEq, Repr

/-- Derived `STRIPE_TERMINAL_ID` (line 194): the production reader id, `null` in test mode. -/
def ApiConfig.stripeTerminalId (cfg : ApiConfig) : Option String :=
  if cfg.env = "prod" then cfg.terminalIdProdEnv else none

/-! ## Requests, processor calls and responses -/

/-- The `/api` routes of the route table (path parameters inlined);
`method` is the HTTP verb express matched for the route. -/
inductive ApiRoute where
  /-- Route `POST /api/payments`. -/
  | payments
  /-- Route `POST /api/terminal/connection_token`. -/
  | connectionToken
  /-- Route `POST /api/terminal/charge`. -/
  | terminalCharge
  /-- Route `GET /api/payment_intents/:id`. -/
  | getPaymentIntent (id : String)
deriving DecidableEq, Repr

def ApiRoute.method : ApiRoute → String
  | .payments => "POST"
  | .connectionToken => "POST"
  | .terminalCharge => "POST"
  | .getPaymentIntent _ => "GET"

/-- JSON request body fields destructured by the handlers (all optional). -/
structure ReqBody where
  amount : Option Int := none
  currency : Option String := none
  category : Option String := none
  description : Option String := none
  artNumber : Option Int := none
  paymentIntentId : Option String := none
deriving DecidableEq, Repr

/-- A request to an `/api` route. -/
structure ApiRequest where
  route : ApiRoute
  xApiKey : Option String := none
  xDeviceKey : Option String := none
  idempotencyKey : Option String := none
  body : ReqBody := {}
deriving DecidableEq, Repr

/-- Attribution `req.deviceKey || "unknown"` as written into payment metadata
(lines 307–311 and 344). -/
def ApiRequest.metaDeviceKey (req : ApiRequest) : String :=
  jsOrStr (jsOr req.xApiKey req.xDeviceKey) "unknown"

/-- Calls made against the Stripe SDK, with the arguments the code passes. -/
inductive ProcessorCall where
  | createPaymentIntent (amount : Int) (currency : String) (description : String)
      (statementDescriptorSuffix : String) (metaArtNumber : Option String)
      (metaDeviceKey : String)
  | createConnectionToken
  | createReader (registrationCode label : String) (location : Option String)
  | processPaymentIntent (readerId : String) (paymentIntent : Option String)
      (idempotencyKey : String)
  | presentPaymentMethod (readerId : String) (cardNumber : String)
  | retrievePaymentIntent (id : String) (expandLatestCharge : Bool)
deriving DecidableEq, Repr

/-- The charge object on a retrieved intent (fields the code reads). -/
structure ChargeInfo where
  status : Option String := none
  failureMessage : Option String := none
  failureCode : Option String := none
  outcomeType : Option String := none
  outcomeSellerMessage : Option String := none
deriving DecidableEq, Repr

/-- The intent's `last_payment_error` object (fields the code reads). -/
structure PaymentErrorInfo where
  code : Option String := none
  declineCode : Option String := none
  message : Option String := none
  errType : Option String := none
deriving DecidableEq, Repr

/-- A payment intent as retrieved from the processor with
`expand: ["latest_charge"]`. -/
structure RetrievedIntent where
  id : String
  status : String
  lastPaymentError : Option PaymentErrorInfo := none
  latestCharge : Option ChargeInfo := none
deriving DecidableEq, Repr

/-- Results the external processor would return for the calls a handler makes
(the processor is an external collaborator; handlers are proved for every
oracle, and rejection paths make no call at all). -/
structure ProcessorOracle where
  createdIntentId : String := ""
  createdIntentStatus : String := ""
  connectionTokenSecret : String := ""
  createdReaderId : String := ""
  retrievedIntent : RetrievedIntent := { id := "", status := "" }
deriving DecidableEq, Repr

/-- Response bodies (only the fields surfaced by `res.json`). -/
inductive RespBody where
  | error (msg : String)
  | paymentCreated (id status : String)
  | tokenSecret (secret : String)
  | readerResult
  | intentSummary (id status effective : String)
      (lastErr : Option PaymentErrorInfo) (latestChargeStatus : Option String)
      (chargeFailureMessage chargeFailureCode : Option String)
      (outcomeType outcomeSellerMessage : Option String)
  | rateLimited
deriving DecidableEq, Repr

structure ApiResponse where
  status : Nat
  calls : List ProcessorCall
  body : RespBody
deriving DecidableEq, Repr

/-! ## Route handlers (`src/server.js` lines 313–459) -/

/-- JS `x || null`: the empty string collapses to `null`. -/
def jsOrNull (o : Option String) : Option String :=
  match o with
  | some s => if s = "" then none else some s
  | none => none

/-- Handler for `POST /api/payments` (lines 313–356). -/
def handlePayments (req : ApiRequest) (o : ProcessorOracle) : ApiResponse :=
  let b := req.body
  if !(truthyAmount b.amount) || !(truthyStr b.currency) then
    ⟨400, [], .error "Amount and currency are required."⟩
  else
    let computedDescription :=
      jsOrStr b.description ("OHP POS - " ++ b.category.getD "Unspecified")
    let suffix := deriveSuffix b.category
    ⟨200,
     [.createPaymentIntent (b.amount.getD 0) (b.currency.getD "")
        computedDescription suffix (b.artNumber.map toString) req.metaDeviceKey],
     .paymentCreated o.createdIntentId o.createdIntentStatus⟩

/-- The deterministic idempotency key `pi-process-${payment_intent_id}`
(line 396); an absent id interpolates as the literal `undefined`. -/
def piProcessKey (pi : Option String) : String :=
  "pi-process-" ++ (match pi with | some s => s | none => "undefined")

/-- Handler for `POST /api/terminal/charge` (lines 369–418). -/
def handleCharge (cfg : ApiConfig) (req : ApiRequest) (o : ProcessorOracle) : ApiResponse :=
  let pi := req.body.paymentIntentId
  if cfg.env = "prod" then
    if !(truthyStr cfg.stripeTerminalId) then
      ⟨400, [], .error "Missing STRIPE_TERMINAL_ID_PROD for production mode"⟩
    else
      let readerId := cfg.stripeTerminalId.getD ""
      ⟨200, [.processPaymentIntent readerId pi (piProcessKey pi)], .readerResult⟩
  else
    let readerId := o.createdReaderId
    let calls :=
      [ProcessorCall.createReader "simulated-wpe" "Simulated POS" cfg.locationId,
       .processPaymentIntent readerId pi (piProcessKey pi)] ++
      (if cfg.simulateCardEnv = some "true" then
        [.presentPaymentMethod readerId
          (jsOrStr cfg.simulateCardNumberEnv "4242424242424242")]
      else [])
    ⟨200, calls, .readerResult⟩

/-- Handler for `GET /api/payment_intents/:id` (lines 420–459). -/
def handleRetrieve (id : String) (o : ProcessorOracle) : ApiResponse :=
  let intent := o.retrievedIntent
  let lastErr := intent.lastPaymentError.map (fun e =>
    { code := jsOrNull e.code
      declineCode := jsOrNull e.declineCode
      message := jsOrNull e.message
      errType := jsOrNull e.errType : PaymentErrorInfo })
  let lc := intent.latestCharge
  let lcStatus := lc.bind (·.status)
  ⟨200, [.retrievePaymentIntent id true],
   .intentSummary intent.id intent.status (effectiveStatus intent.status lcStatus)
     lastErr lcStatus
     (jsOrNull (lc.bind (·.failureMessage))) (jsOrNull (lc.bind (·.failureCode)))
     (jsOrNull (lc.bind (·.outcomeType))) (jsOrNull (lc.bind (·.outcomeSellerMessage)))⟩

/-- Route dispatch after all middleware stages pass. -/
def handleRoute (cfg : ApiConfig) (req : ApiRequest) (o : ProcessorOracle) : ApiResponse :=
  match req.route with
  | .payments => handlePayments req o
  | .connectionToken => ⟨200, [.createConnectionToken], .tokenSecret o.connectionTokenSecret⟩
  | .terminalCharge => handleCharge cfg req o
  | .getPaymentIntent id => handleRetrieve id o

/-! ## The `/api` admission pipeline (lines 286–311 then the route table)

`priorCount` is the limiter's stored count, for this client's key, within the
current window before this request arrives: the middleware order is
authentication → rate limiting → idempotency enforcement → handler. -/

def apiPipeline (cfg : ApiConfig) (priorCount : Nat) (req : ApiRequest)
    (o : ProcessorOracle) : ApiResponse :=
  match authDecision cfg.auth req.xApiKey req.xDeviceKey with
  | .serverError =>
    ⟨500, [], .error "Server not configured: missing POS_BACKEND_KEY or POS_BACKEND_KEYS"⟩
  | .unauthorized => ⟨401, [], .error "Unauthorized"⟩
  | .allowed =>
    if priorCount + 1 > cfg.rateLimit then ⟨429, [], .rateLimited⟩
    else if idemReject req.route.method req.idempotencyKey then
      ⟨400, [], .error "Missing Idempotency-Key header"⟩
    else handleRoute cfg req o

/-! ## Derived notions used by the claims -/

/-- The secrets the configuration accepts: the single key when set, plus the
key set. -/
def configuredKeys (cfg : AuthConfig) : List String :=
  (if cfg.singleKey = "" then [] else [cfg.singleKey]) ++ cfg.multiKeys

/-- The `effective_status` field of a response, when the response carries one. -/
def ApiResponse.effectiveField (r : ApiResponse) : Option String :=
  match r.body with
  | .intentSummary _ _ eff _ _ _ _ _ _ => some eff
  | _ => none

end OHPOS

/-- Sanity: suffix derivation on a plain category. -/
example : OHPOS.deriveSuffix (some "Concessions") = "OHP CONCESSIONS" := by decide

example : OHPOS.deriveSuffix none = "OHP POS" := by decide

example : OHPOS.deriveSuffix (some "fine ART sale") = "OHP ART" := by decide

example : OHPOS.deriveSuffix (some "merch concession") = "OHP CONCESSIONS" := by decide

example : OHPOS.effectiveStatus "processing" (some "succeeded") = "succeeded" := by decide

-- Scratch sanity checks (IP model and extractor behaviour)
example : OHPOS.isIP "1.2.3.4" = true := by decide
example : OHPOS.isIP "256.1.1.1" = false := by decide
example : OHPOS.isIP "01.2.3.4" = false := by decide
example : OHPOS.isIP "" = false := by decide
example : OHPOS.isIP "abc" = false := by decide
example : OHPOS.isIP "::1" = true := by decide
example : OHPOS.isIP "2001:db8::ff00:42:8329" = true := by decide
example : OHPOS.isIP "1:2:3:4:5:6:7:8" = true := by decide
example : OHPOS.isIP "1:2:3:4:5:6:7" = false := by decide
example : OHPOS.isIP "::ffff:1.2.3.4" = true := by decide
example : OHPOS.isIP ":::" = false := by decide
example : OHPOS.getClientIp (some "203.0.113.7:54321, 10.0.0.1") none none = "203.0.113.7" := by decide
example : OHPOS.getClientIp (some "::ffff:203.0.113.7") none none = "203.0.113.7" := by decide
example : OHPOS.getClientIp (some "garbage") none (some "10.0.0.9") = "10.0.0.9" := by decide
example : OHPOS.getClientIp (some "garbage") none none = "garbage" := by decide
example : OHPOS.getClientIp none none none = "unknown" := by decide
example : OHPOS.getClientIp (some "[2001:db8::1]:443") none none = "2001:db8:" := by decide

namespace OHPOS

/-! # Theorems settling the claims -/

/-- A presented value outside the configured secrets never validates. -/
lemma hasValidKey_eq_false_of_not_configured (cfg : AuthConfig) (v : Option String)
    (h : ∀ s, v = some s → s ∉ configuredKeys cfg) :
    hasValidKey cfg v = false := by
  cases v with
  | none => rfl
  | some s =>
    have hs := h s rfl
    simp only [configuredKeys, List.mem_append, not_or] at hs
    unfold hasValidKey
    by_cases hemp : s = ""
    · simp [hemp]
    · have h1 : ¬ (cfg.singleKey ≠ "" ∧ s = cfg.singleKey) := by
        rintro ⟨hne, rfl⟩
        exact hs.1 (by simp [hne])
      have h2 : ¬ (cfg.multiKeys.length > 0 ∧ cfg.multiKeys.contains s) := by
        rintro ⟨-, hc⟩
        exact hs.2 (by simpa using hc)
      simp only [hemp, if_false]
      rw [if_neg, if_neg]
      · simpa using h2
      · simpa using h1

/-- Claim C1: a request to an `/api` route whose presented credential
(`x-api-key`, falling back to `x-device-key`) is missing or matches no
configured secret is answered with HTTP 401 and makes no processor call
(the configuration holding at least one secret, the case an empty
configuration answers being Claim C2's). -/
theorem claim_C1_invalid_credential_unauthorized
    (cfg : ApiConfig) (priorCount : Nat) (req : ApiRequest) (o : ProcessorOracle)
    (hconf : ¬ (cfg.auth.singleKey = "" ∧ cfg.auth.multiKeys = []))
    (hpres : ∀ s, jsOr req.xApiKey req.xDeviceKey = some s → s ∉ configuredKeys cfg.auth) :
    (apiPipeline cfg priorCount req o).status = 401 ∧
    (apiPipeline cfg priorCount req o).calls = [] := by
  have hk := hasValidKey_eq_false_of_not_configured cfg.auth
    (jsOr req.xApiKey req.xDeviceKey) hpres
  have hd : authDecision cfg.auth req.xApiKey req.xDeviceKey = .unauthorized := by
    unfold authDecision
    rw [if_neg hconf, if_pos (by simp [hk])]
  unfold apiPipeline
  rw [hd]
  exact ⟨rfl, rfl⟩

/-- Witness for Claim C1 at a concrete configuration and request. -/
theorem claim_C1_witness :
    (apiPipeline
        { env := "test", terminalIdProdEnv := none, locationId := some "loc_1"
          auth := { singleKey := "sekrit", multiKeys := [] }, rateLimit := 60
          simulateCardEnv := none, simulateCardNumberEnv := none }
        0 { route := .payments, xApiKey := some "wrong" } {}).status = 401 ∧
    (apiPipeline
        { env := "test", terminalIdProdEnv := none, locationId := some "loc_1"
          auth := { singleKey := "sekrit", multiKeys := [] }, rateLimit := 60
          simulateCardEnv := none, simulateCardNumberEnv := none }
        0 { route := .payments, xApiKey := some "wrong" } {}).calls = [] :=
  claim_C1_invalid_credential_unauthorized _ 0 _ {}
    (by decide)
    (fun s hs => by
      cases hs
      decide)

/-- Claim C2: with neither a single secret nor a non-empty key set
configured, every `/api` request is answered with HTTP 500 and makes no
processor call, whatever credential it presents. -/
theorem claim_C2_unconfigured_rejects_all
    (cfg : ApiConfig) (priorCount : Nat) (req : ApiRequest) (o : ProcessorOracle)
    (hsingle : cfg.auth.singleKey = "")
    (hmulti : cfg.auth.multiKeys = []) :
    (apiPipeline cfg priorCount req o).status = 500 ∧
    (apiPipeline cfg priorCount req o).calls = [] := by
  have hd : authDecision cfg.auth req.xApiKey req.xDeviceKey = .serverError := by
    unfold authDecision
    rw [if_pos ⟨hsingle, hmulti⟩]
  unfold apiPipeline
  rw [hd]
  exact ⟨rfl, rfl⟩

/-- Taking at most `n` characters leaves at most `n` characters. -/
lemma strTakeN_length_le (s : String) (n : Nat) : (strTakeN s n).length ≤ n := by
  show (s.data.take n).length ≤ n
  simp

/-- Counterexample to Claim C3: the category `"merch concession"` contains
`"merch"`, yet its suffix is `"OHP CONCESSIONS"`, not `"OHP MERCH"` — the
keyword clauses of the claim cannot all hold at once because the code
checks `concession` first. -/
theorem claim_C3_counterexample :
    strIncludes (strToLower "merch concession") "merch" = true ∧
    deriveSuffix (some "merch concession") = "OHP CONCESSIONS" ∧
    "OHP CONCESSIONS" ≠ "OHP MERCH" := by
  exact ⟨by decide, by decide, by decide⟩

/-- Claim C3 (amended): the suffix is decided by case-insensitive substring
match in priority order — a category containing `"concession"` yields
`"OHP CONCESSIONS"`; otherwise one containing `"merch"` yields
`"OHP MERCH"`; otherwise one containing `"art"` yields `"OHP ART"`;
otherwise (a missing category included) `"OHP POS"` — and every produced
suffix is at most 22 characters long. -/
theorem claim_C3_amended_priority_suffix (category : Option String) :
    deriveSuffix category = prioritySuffix category ∧
    (deriveSuffix category).length ≤ 22 := by
  refine ⟨?_, strTakeN_length_le _ 22⟩
  cases category with
  | none => decide
  | some c =>
    by_cases hc : c = ""
    · subst hc; decide
    · unfold deriveSuffix prioritySuffix jsOrStr
      simp only [hc, if_false]
      by_cases h1 : strIncludes (strToLower c) "concession" = true
      · simp only [h1, if_true]; decide
      · by_cases h2 : strIncludes (strToLower c) "merch" = true
        · simp only [h1, h2, if_true, if_false]; decide
        · by_cases h3 : strIncludes (strToLower c) "art" = true
          · simp only [h1, h2, h3, if_true, if_false]; decide
          · simp only [h1, h2, h3, if_false]; decide

/-- Witness for Claim C2: even a request presenting some credential is
rejected with 500 under the empty configuration. -/
theorem claim_C2_witness :
    (apiPipeline
        { env := "test", terminalIdProdEnv := none, locationId := none
          auth := { singleKey := "", multiKeys := [] }, rateLimit := 60
          simulateCardEnv := none, simulateCardNumberEnv := none }
        0 { route := .payments, xApiKey := some "anything" } {}).status = 500 ∧
    (apiPipeline
        { env := "test", terminalIdProdEnv := none, locationId := none
          auth := { singleKey := "", multiKeys := [] }, rateLimit := 60
          simulateCardEnv := none, simulateCardNumberEnv := none }
        0 { route := .payments, xApiKey := some "anything" } {}).calls = [] :=
  claim_C2_unconfigured_rejects_all _ 0 _ {} rfl rfl

/-- Claim C4: the retrieval handler reports `effective_status` equal to
`"succeeded"` exactly when the intent's own status or its latest charge's
status is `"succeeded"`, and the intent's own status unchanged otherwise;
in particular `processing` plus a succeeded charge reads as succeeded. -/
theorem claim_C4_effective_status (id : String) (o : ProcessorOracle) :
    (handleRetrieve id o).effectiveField =
      some (effectiveStatus o.retrievedIntent.status
        (o.retrievedIntent.latestCharge.bind (·.status))) ∧
    (∀ (is : String) (cs : Option String),
      (effectiveStatus is cs = "succeeded" ↔ (is = "succeeded" ∨ cs = some "succeeded")) ∧
      (¬ (is = "succeeded" ∨ cs = some "succeeded") → effectiveStatus is cs = is)) ∧
    effectiveStatus "processing" (some "succeeded") = "succeeded" := by
  refine ⟨rfl, ?_, by decide⟩
  intro is cs
  unfold effectiveStatus
  by_cases h : is = "succeeded" ∨ cs = some "succeeded"
  · constructor
    · rw [if_pos h]
      exact ⟨fun _ => h, fun _ => rfl⟩
    · exact fun hn => absurd h hn
  · rw [if_neg h]
    refine ⟨⟨fun hs => (h (Or.inl hs)).elim, fun hs => absurd hs h⟩, fun _ => rfl⟩

/-- Witness for Claim C4 at the simulated eventual-consistency scenario. -/
theorem claim_C4_witness :
    (handleRetrieve "pi_1"
        { retrievedIntent :=
            { id := "pi_1", status := "processing"
              latestCharge := some { status := some "succeeded" } } }).effectiveField =
      some "succeeded" :=
  (claim_C4_effective_status "pi_1"
    { retrievedIntent :=
        { id := "pi_1", status := "processing"
          latestCharge := some { status := some "succeeded" } } }).1

/-- Claim C5: a POST to an `/api` route from an authorized client under the
rate limit that presents no (or an empty) `Idempotency-Key` header is
answered with HTTP 400 and makes no processor call; and the stage checks
presence only — any non-empty value passes it, whatever the value. -/
theorem claim_C5_missing_idempotency_key
    (cfg : ApiConfig) (priorCount : Nat) (req : ApiRequest) (o : ProcessorOracle)
    (hauth : authDecision cfg.auth req.xApiKey req.xDeviceKey = .allowed)
    (hrl : priorCount + 1 ≤ cfg.rateLimit)
    (hpost : req.route.method = "POST")
    (hidem : truthyStr req.idempotencyKey = false) :
    (apiPipeline cfg priorCount req o).status = 400 ∧
    (apiPipeline cfg priorCount req o).calls = [] ∧
    (apiPipeline cfg priorCount req o).body = .error "Missing Idempotency-Key header" ∧
    (∀ (m v : String), v ≠ "" → idemReject m (some v) = false) := by
  have hrej : idemReject req.route.method req.idempotencyKey = true := by
    unfold idemReject
    rw [hpost, hidem]
    decide
  unfold apiPipeline
  rw [hauth]
  rw [if_neg (by omega), if_pos hrej]
  refine ⟨rfl, rfl, rfl, ?_⟩
  intro m v hv
  unfold idemReject truthyStr
  simp [hv]

/-- Witness for Claim C5: an authorized, under-limit POST without the
header is rejected with 400 and no call. -/
theorem claim_C5_witness :
    (apiPipeline
        { env := "test", terminalIdProdEnv := none, locationId := none
          auth := { singleKey := "sekrit", multiKeys := [] }, rateLimit := 60
          simulateCardEnv := none, simulateCardNumberEnv := none }
        0 { route := .payments, xApiKey := some "sekrit" } {}).status = 400 ∧
    (apiPipeline
        { env := "test", terminalIdProdEnv := none, locationId := none
          auth := { singleKey := "sekrit", multiKeys := [] }, rateLimit := 60
          simulateCardEnv := none, simulateCardNumberEnv := none }
        0 { route := .payments, xApiKey := some "sekrit" } {}).calls = [] :=
  have h := claim_C5_missing_idempotency_key
    { env := "test", terminalIdProdEnv := none, locationId := none
      auth := { singleKey := "sekrit", multiKeys := [] }, rateLimit := 60
      simulateCardEnv := none, simulateCardNumberEnv := none }
    0 { route := .payments, xApiKey := some "sekrit" } {}
    (by decide) (by decide) rfl rfl
  ⟨h.1, h.2.1⟩

/-- A request that clears authentication, the rate limit and the
idempotency stage is handed to its route handler. -/
lemma apiPipeline_reaches_handler
    (cfg : ApiConfig) (priorCount : Nat) (req : ApiRequest) (o : ProcessorOracle)
    (hauth : authDecision cfg.auth req.xApiKey req.xDeviceKey = .allowed)
    (hrl : priorCount + 1 ≤ cfg.rateLimit)
    (hidem : idemReject req.route.method req.idempotencyKey = false) :
    apiPipeline cfg priorCount req o = handleRoute cfg req o := by
  unfold apiPipeline
  rw [hauth]
  rw [if_neg (by omega), if_neg (by simp [hidem])]

/-- Claim C6: a CreatePaymentIntent request (admitted by the middleware)
whose `amount` or `currency` is absent is answered with HTTP 400 and makes
no processor call. -/
theorem claim_C6_missing_amount_or_currency
    (cfg : ApiConfig) (priorCount : Nat) (req : ApiRequest) (o : ProcessorOracle)
    (hauth : authDecision cfg.auth req.xApiKey req.xDeviceKey = .allowed)
    (hrl : priorCount + 1 ≤ cfg.rateLimit)
    (hidem : truthyStr req.idempotencyKey = true)
    (hroute : req.route = .payments)
    (hmiss : req.body.amount = none ∨ req.body.currency = none) :
    (apiPipeline cfg priorCount req o).status = 400 ∧
    (apiPipeline cfg priorCount req o).calls = [] ∧
    (apiPipeline cfg priorCount req o).body = .error "Amount and currency are required." := by
  have hpipe := apiPipeline_reaches_handler cfg priorCount req o hauth hrl
    (by unfold idemReject; rw [hidem]; simp)
  rw [hpipe]
  rcases hmiss with h | h <;>
    simp [handleRoute, hroute, handlePayments, h, truthyAmount, truthyStr]

/-- Witness for Claim C6: an admitted payment request with no amount. -/
theorem claim_C6_witness :
    (apiPipeline
        { env := "test", terminalIdProdEnv := none, locationId := none
          auth := { singleKey := "sekrit", multiKeys := [] }, rateLimit := 60
          simulateCardEnv := none, simulateCardNumberEnv := none }
        0 { route := .payments, xApiKey := some "sekrit", idempotencyKey := some "idem-1"
            body := { currency := some "usd" } } {}).status = 400 ∧
    (apiPipeline
        { env := "test", terminalIdProdEnv := none, locationId := none
          auth := { singleKey := "sekrit", multiKeys := [] }, rateLimit := 60
          simulateCardEnv := none, simulateCardNumberEnv := none }
        0 { route := .payments, xApiKey := some "sekrit", idempotencyKey := some "idem-1"
            body := { currency := some "usd" } } {}).calls = [] :=
  have h := claim_C6_missing_amount_or_currency
    { env := "test", terminalIdProdEnv := none, locationId := none
      auth := { singleKey := "sekrit", multiKeys := [] }, rateLimit := 60
      simulateCardEnv := none, simulateCardNumberEnv := none }
    0 { route := .payments, xApiKey := some "sekrit", idempotencyKey := some "idem-1"
        body := { currency := some "usd" } } {}
    (by decide) (by decide) (by decide) rfl (Or.inl rfl)
  ⟨h.1, h.2.1⟩

/-- Claim C10: the required-field check is a falsiness check — an admitted
payment request with `amount` present but `0`, or `currency` present but
the empty string, is rejected with HTTP 400 and makes no processor call
even though the field is present. -/
theorem claim_C10_zero_amount_or_empty_currency
    (cfg : ApiConfig) (priorCount : Nat) (req : ApiRequest) (o : ProcessorOracle)
    (hauth : authDecision cfg.auth req.xApiKey req.xDeviceKey = .allowed)
    (hrl : priorCount + 1 ≤ cfg.rateLimit)
    (hidem : truthyStr req.idempotencyKey = true)
    (hroute : req.route = .payments)
    (hfalsy : req.body.amount = some 0 ∨ req.body.currency = some "") :
    (apiPipeline cfg priorCount req o).status = 400 ∧
    (apiPipeline cfg priorCount req o).calls = [] ∧
    (apiPipeline cfg priorCount req o).body = .error "Amount and currency are required." := by
  have hpipe := apiPipeline_reaches_handler cfg priorCount req o hauth hrl
    (by unfold idemReject; rw [hidem]; simp)
  rw [hpipe]
  rcases hfalsy with h | h <;>
    simp [handleRoute, hroute, handlePayments, h, truthyAmount, truthyStr]

/-- Witness for Claim C10: amount present but zero is still rejected. -/
theorem claim_C10_witness :
    (apiPipeline
        { env := "test", terminalIdProdEnv := none, locationId := none
          auth := { singleKey := "sekrit", multiKeys := [] }, rateLimit := 60
          simulateCardEnv := none, simulateCardNumberEnv := none }
        0 { route := .payments, xApiKey := some "sekrit", idempotencyKey := some "idem-1"
            body := { amount := some 0, currency := some "usd" } } {}).status = 400 ∧
    (apiPipeline
        { env := "test", terminalIdProdEnv := none, locationId := none
          auth := { singleKey := "sekrit", multiKeys := [] }, rateLimit := 60
          simulateCardEnv := none, simulateCardNumberEnv := none }
        0 { route := .payments, xApiKey := some "sekrit", idempotencyKey := some "idem-1"
            body := { amount := some 0, currency := some "usd" } } {}).calls = [] :=
  have h := claim_C10_zero_amount_or_empty_currency
    { env := "test", terminalIdProdEnv := none, locationId := none
      auth := { singleKey := "sekrit", multiKeys := [] }, rateLimit := 60
      simulateCardEnv := none, simulateCardNumberEnv := none }
    0 { route := .payments, xApiKey := some "sekrit", idempotencyKey := some "idem-1"
        body := { amount := some 0, currency := some "usd" } } {}
    (by decide) (by decide) (by decide) rfl (Or.inl rfl)
  ⟨h.1, h.2.1⟩

/-- Claim C7: an admitted ProcessOnReader request in production mode with no
physical reader identifier configured is answered with HTTP 400 and makes
no processor call at all — in particular neither reader provisioning nor
reader processing is attempted. -/
theorem claim_C7_prod_missing_reader
    (cfg : ApiConfig) (priorCount : Nat) (req : ApiRequest) (o : ProcessorOracle)
    (hauth : authDecision cfg.auth req.xApiKey req.xDeviceKey = .allowed)
    (hrl : priorCount + 1 ≤ cfg.rateLimit)
    (hidem : truthyStr req.idempotencyKey = true)
    (hroute : req.route = .terminalCharge)
    (henv : cfg.env = "prod")
    (hterm : truthyStr cfg.terminalIdProdEnv = false) :
    (apiPipeline cfg priorCount req o).status = 400 ∧
    (apiPipeline cfg priorCount req o).calls = [] ∧
    (apiPipeline cfg priorCount req o).body =
      .error "Missing STRIPE_TERMINAL_ID_PROD for production mode" := by
  have hpipe := apiPipeline_reaches_handler cfg priorCount req o hauth hrl
    (by unfold idemReject; rw [hidem]; simp)
  rw [hpipe]
  unfold handleRoute
  rw [hroute]
  unfold handleCharge
  have hterm' : truthyStr cfg.stripeTerminalId = false := by
    unfold ApiConfig.stripeTerminalId
    rw [henv]
    simpa using hterm
  rw [if_pos henv, if_pos (by rw [hterm']; decide)]
  exact ⟨rfl, rfl, rfl⟩

/-- Witness for Claim C7: production mode, no reader id configured. -/
theorem claim_C7_witness :
    (apiPipeline
        { env := "prod", terminalIdProdEnv := none, locationId := none
          auth := { singleKey := "sekrit", multiKeys := [] }, rateLimit := 60
          simulateCardEnv := none, simulateCardNumberEnv := none }
        0 { route := .terminalCharge, xApiKey := some "sekrit", idempotencyKey := some "idem-1"
            body := { paymentIntentId := some "pi_1" } } {}).status = 400 ∧
    (apiPipeline
        { env := "prod", terminalIdProdEnv := none, locationId := none
          auth := { singleKey := "sekrit", multiKeys := [] }, rateLimit := 60
          simulateCardEnv := none, simulateCardNumberEnv := none }
        0 { route := .terminalCharge, xApiKey := some "sekrit", idempotencyKey := some "idem-1"
            body := { paymentIntentId := some "pi_1" } } {}).calls = [] :=
  have h := claim_C7_prod_missing_reader
    { env := "prod", terminalIdProdEnv := none, locationId := none
      auth := { singleKey := "sekrit", multiKeys := [] }, rateLimit := 60
      simulateCardEnv := none, simulateCardNumberEnv := none }
    0 { route := .terminalCharge, xApiKey := some "sekrit", idempotencyKey := some "idem-1"
        body := { paymentIntentId := some "pi_1" } } {}
    (by decide) (by decide) (by decide) rfl rfl rfl
  ⟨h.1, h.2.1⟩

/-- Counterexample to Claim C8: with the forwarding header `"garbage"` and
no socket address, the cleaned token and the cleaned socket address are
both invalid, yet the extractor returns `"garbage"`, not `"unknown"` — the
code ends in `return token || "unknown"`, so the literal `"unknown"` only
appears for an empty token. -/
theorem claim_C8_counterexample :
    isIP (headerToken (some "garbage") none) = false ∧
    isIP (socketToken none) = false ∧
    getClientIp (some "garbage") none none = "garbage" ∧
    "garbage" ≠ "unknown" := by
  exact ⟨by decide, by decide, by decide, by decide⟩

/-- Claim C8 (amended): the extractor is total — it returns a string on
every input, by construction — and when the cleaned forwarding-header
token and the cleaned socket address are both syntactically invalid, it
returns the cleaned token itself when that token is non-empty, and the
literal `"unknown"` only when the token is empty. -/
theorem claim_C8_amended_fallback
    (xff reqIp remoteAddress : Option String)
    (htok : isIP (headerToken xff reqIp) = false)
    (hra : isIP (socketToken remoteAddress) = false) :
    getClientIp xff reqIp remoteAddress =
      (if headerToken xff reqIp = "" then "unknown" else headerToken xff reqIp) := by
  simp [getClientIp, htok, hra]

/-- Witness for Claim C8: with every input absent the token is empty and
the extractor returns `"unknown"`. -/
theorem claim_C8_witness :
    isIP (headerToken none none) = false ∧
    isIP (socketToken none) = false ∧
    getClientIp none none none = "unknown" := by
  refine ⟨by decide, by decide, ?_⟩
  have h := claim_C8_amended_fallback none none none (by decide) (by decide)
  have he : headerToken none none = "" := by decide
  rw [he] at h
  simpa using h

/-- Within one window, limiter verdicts starting from count `c` are exactly
"the running count exceeds the limit". -/
lemma runLimiter_within_window (limit : Nat) (ts : List Nat)
    (hts : ∀ t ∈ ts, t < windowMs) :
    ∀ c : Nat, runLimiter limit ⟨0, c⟩ ts =
      (List.range ts.length).map (fun i => decide (c + i + 1 > limit)) := by
  induction ts with
  | nil => intro c; rfl
  | cons t ts ih =>
    intro c
    have ht : t < windowMs := hts t (List.mem_cons_self t ts)
    have hstep : limiterHit limit ⟨0, c⟩ t = (⟨0, c + 1⟩, decide (c + 1 > limit)) := by
      unfold limiterHit
      rw [if_neg (by omega)]
    show (limiterHit limit ⟨0, c⟩ t).2 ::
        runLimiter limit (limiterHit limit ⟨0, c⟩ t).1 ts = _
    rw [hstep]
    have hrest := ih (fun t' ht' => hts t' (List.mem_cons_of_mem t ht')) (c + 1)
    rw [hrest]
    simp only [List.length_cons, List.range_succ_eq_map, List.map_cons, List.map_map]
    congr 1
    apply List.map_congr_left
    intro i _
    simp only [Function.comp_apply]
    exact decide_eq_decide.mpr (by omega)

/-- Claim C9: with the limit configured to `N`, for a fixed client identity
and `N + 1` requests inside one 60-second window, the first `N` are not
rate-limited and the `(N+1)`-th is; and a request arriving when the
limiter already counts `N` in the window is answered with HTTP 429 and
makes no processor call. -/
theorem claim_C9_rate_limit_window
    (N : Nat) (ts : List Nat)
    (hlen : ts.length = N + 1)
    (hts : ∀ t ∈ ts, t < windowMs)
    (cfg : ApiConfig) (req : ApiRequest) (o : ProcessorOracle)
    (hlim : cfg.rateLimit = N)
    (hauth : authDecision cfg.auth req.xApiKey req.xDeviceKey = .allowed) :
    (∀ i, i < N → (runLimiter N ⟨0, 0⟩ ts).get? i = some false) ∧
    (runLimiter N ⟨0, 0⟩ ts).get? N = some true ∧
    (apiPipeline cfg N req o).status = 429 ∧
    (apiPipeline cfg N req o).calls = [] := by
  have hrun := runLimiter_within_window N ts hts 0
  have hget : ∀ i, i < N + 1 →
      (runLimiter N ⟨0, 0⟩ ts).get? i = some (decide (0 + i + 1 > N)) := by
    intro i hi
    rw [hrun, List.get?_map, List.get?_range (by omega : i < ts.length)]
    rfl
  refine ⟨?_, ?_, ?_, ?_⟩
  · intro i hi
    rw [hget i (by omega)]
    simp
    omega
  · rw [hget N (by omega)]
    simp
  · unfold apiPipeline
    rw [hauth, if_pos (by omega)]
  · unfold apiPipeline
    rw [hauth, if_pos (by omega)]

/-- Witness for Claim C9 at `N = 2` with three requests in one window. -/
theorem claim_C9_witness :
    (runLimiter 2 ⟨0, 0⟩ [0, 10, 20]).get? 0 = some false ∧
    (runLimiter 2 ⟨0, 0⟩ [0, 10, 20]).get? 1 = some false ∧
    (runLimiter 2 ⟨0, 0⟩ [0, 10, 20]).get? 2 = some true ∧
    (apiPipeline
        { env := "test", terminalIdProdEnv := none, locationId := none
          auth := { singleKey := "sekrit", multiKeys := [] }, rateLimit := 2
          simulateCardEnv := none, simulateCardNumberEnv := none }
        2 { route := .payments, xApiKey := some "sekrit", idempotencyKey := some "idem-1"
            body := { amount := some 100, currency := some "usd" } } {}).status = 429 ∧
    (apiPipeline
        { env := "test", terminalIdProdEnv := none, locationId := none
          auth := { singleKey := "sekrit", multiKeys := [] }, rateLimit := 2
          simulateCardEnv := none, simulateCardNumberEnv := none }
        2 { route := .payments, xApiKey := some "sekrit", idempotencyKey := some "idem-1"
            body := { amount := some 100, currency := some "usd" } } {}).calls = [] :=
  have h := claim_C9_rate_limit_window 2 [0, 10, 20] rfl
    (by intro t ht; fin_cases ht <;> decide)
    { env := "test", terminalIdProdEnv := none, locationId := none
      auth := { singleKey := "sekrit", multiKeys := [] }, rateLimit := 2
      simulateCardEnv := none, simulateCardNumberEnv := none }
    { route := .payments, xApiKey := some "sekrit", idempotencyKey := some "idem-1"
      body := { amount := some 100, currency := some "usd" } } {}
    rfl (by decide)
  ⟨h.1 0 (by decide), h.1 1 (by decide), h.2.1, h.2.2.1, h.2.2.2⟩

end OHPOS
